import Mathlib

/-!
Shallow embedding of the property serialization core of CyberpunkSaveEditor
(src/Source/csav/csystem/CPropertyBase.hpp): the `CProperty` base class with
its skippable flag and listener notification machinery, and the
`CUnknownProperty` raw-bytes fallback variant.

Streams are modelled after `std::istream` / `std::ostream`: a byte list, a
read position, and a single `good` flag standing for the absence of
fail/bad/eof bits.  Listeners are identified by natural numbers (standing
for `CPropertyListener*` pointers); a listener callback may act back on the
property only through `add_listener` / `remove_listener`, modelled by the
action language `LAction`, and its behaviour is an arbitrary function from
the observed property state to a list of such actions.
-/

/-- `EPropertyKind` from CPropertyBase.hpp. -/
inductive EPropertyKind where
  | None
  | Unknown
  | Bool
  | Integer
  | Float
  | Double
  | Combo
  | Array
  | DynArray
  | Handle
  | Object
  | TweakDBID
  | CName
  | NodeRef
deriving DecidableEq

/-- `EPropertyEvent` from CPropertyBase.hpp: the only event is `data_modified`. -/
inductive EPropertyEvent where
  | data_modified
deriving DecidableEq

/-- A byte stands for a `char` of the C++ buffers; no arithmetic is done on
bytes so a plain `Nat` suffices. -/
abbrev Byte := Nat

/-- Model of a bounded seekable `std::istream` view: the byte content of the
bounded region, the current get position, and a `good` flag (`is.good()`,
false once any of fail/bad/eof is set by a failed operation). -/
structure IStream where
  data : List Byte
  pos : Nat
  good : Bool
deriving DecidableEq

/-- `is.tellg()`: the current position, or -1 on a stream in a failed state. -/
def IStream.tellg (s : IStream) : Int :=
  if s.good then (s.pos : Int) else -1

/-- `is.seekg(0, std::ios_base::end)`: move the get position to the end of the
bounded region; a no-op (failbit stays) on a stream in a failed state. -/
def IStream.seekg_end (s : IStream) : IStream :=
  if s.good then { s with pos := s.data.length } else s

/-- `is.seekg(p)`: absolute seek.  Succeeds on a good stream for positions
inside [0, length]; otherwise the stream enters (or stays in) a failed
state. -/
def IStream.seekg (s : IStream) (p : Int) : IStream :=
  if s.good ∧ 0 ≤ p ∧ p ≤ (s.data.length : Int) then
    { s with pos := p.toNat }
  else
    { s with good := false }

/-- `is.read(buf, n)`: extract `n` bytes from the current position.  If fewer
than `n` bytes remain, the available bytes are extracted and the stream
enters a failed state (failbit|eofbit).  On a stream already in a failed
state nothing is extracted. -/
def IStream.read (s : IStream) (n : Nat) : List Byte × IStream :=
  if s.good then
    if s.pos + n ≤ s.data.length then
      ((s.data.drop s.pos).take n, { s with pos := s.pos + n })
    else
      ((s.data.drop s.pos).take n, { s with pos := s.data.length, good := false })
  else
    ([], s)

/-- Model of a `std::ostream`: bytes written so far, an optional capacity
(`none` = never faults, `some c` = a write that would bring the total past
`c` bytes faults, standing for e.g. a full disk), and a `good` flag. -/
structure OStream where
  out : List Byte
  cap : Option Nat
  good : Bool
deriving DecidableEq

/-- `os.write(buf, n)`: append the bytes on a good stream with room for them;
a write past the capacity puts the stream in a failed state, and a write to
a stream already in a failed state is a no-op. -/
def OStream.write (s : OStream) (bs : List Byte) : OStream :=
  if s.good then
    match s.cap with
    | Option.none => { s with out := s.out ++ bs }
    | Option.some c =>
        if s.out.length + bs.length ≤ c then { s with out := s.out ++ bs }
        else { s with good := false }
  else
    s

/-- Listener identity: stands for a `CPropertyListener*` pointer value. -/
abbrev ListenerId := Nat

/-- State of the `CProperty` base class: the immutable kind, the
`m_is_skippable_in_ser` flag (initialised `true` in the class definition),
and the `m_listeners` set (`std::set<CPropertyListener*>`, modelled as a
sorted duplicate-free list of pointer values). -/
structure CProperty where
  m_property_kind : EPropertyKind
  m_is_skippable_in_ser : Bool
  m_listeners : List ListenerId
deriving DecidableEq

/-- `CProperty::kind()`. -/
def CProperty.kind (self : CProperty) : EPropertyKind := self.m_property_kind

/-- `CProperty::is_skippable_in_serialization()`. -/
def CProperty.is_skippable_in_serialization (self : CProperty) : Bool :=
  self.m_is_skippable_in_ser

/-- The protected constructor `CProperty(EPropertyKind kind)`: sets the kind;
`m_is_skippable_in_ser` is initialised `true` and `m_listeners` empty. -/
def CProperty.construct (kind : EPropertyKind) : CProperty :=
  ⟨kind, true, []⟩

/-- `std::set` insertion: keeps the list sorted and duplicate-free. -/
def setInsert (x : ListenerId) : List ListenerId → List ListenerId
  | [] => [x]
  | y :: ys =>
      if x < y then x :: y :: ys
      else if x = y then y :: ys
      else y :: setInsert x ys

/-- `std::set::erase`. -/
def setErase (x : ListenerId) (xs : List ListenerId) : List ListenerId :=
  xs.filter (fun y => y ≠ x)

/-- `CProperty::add_listener`: inserts into the observer set (a `const`
method in the source; observation is not a mutation of domain state). -/
def CProperty.add_listener (self : CProperty) (listener : ListenerId) : CProperty :=
  { self with m_listeners := setInsert listener self.m_listeners }

/-- `CProperty::remove_listener`: erases from the observer set (also a
`const` method in the source). -/
def CProperty.remove_listener (self : CProperty) (listener : ListenerId) : CProperty :=
  { self with m_listeners := setErase listener self.m_listeners }

/-- An action a listener callback may perform on the property from inside
`on_cproperty_event`: the `const` interface it receives exposes
`add_listener` and `remove_listener`. -/
inductive LAction where
  | addListener (l : ListenerId)
  | removeListener (l : ListenerId)
deriving DecidableEq

/-- Apply one listener-callback action to the property state. -/
def applyAction (s : CProperty) : LAction → CProperty
  | LAction.addListener l => s.add_listener l
  | LAction.removeListener l => s.remove_listener l

/-- A listener behaviour: given the listener's identity and the property
state it observes at callback time, the actions it performs on the
property during the callback. -/
abbrev Behavior := ListenerId → CProperty → List LAction

/-- Record of one callback invocation `l->on_cproperty_event(self, evt)`:
which listener was called, with which event, and the property state it
observed at that moment (`shared_from_this()` hands it the live object). -/
structure Delivery where
  listener : ListenerId
  evt : EPropertyEvent
  observed : CProperty
deriving DecidableEq

/-- The notification loop of `post_cproperty_event`: iterate over the copied
listener list, invoking each callback on the current live state and applying
the actions the callback performs.  Returns the final state and the log of
callback invocations in order. -/
def notifyAll (behav : Behavior) (evt : EPropertyEvent) :
    List ListenerId → CProperty → CProperty × List Delivery
  | [], s => (s, [])
  | l :: rest, s =>
      let d : Delivery := ⟨l, evt, s⟩
      let s1 := (behav l s).foldl applyAction s
      let r := notifyAll behav evt rest s1
      (r.1, d :: r.2)

/-- `CProperty::post_cproperty_event`: copies `m_listeners`, invokes every
listener of the copy, then (for `data_modified`) clears
`m_is_skippable_in_ser`. -/
def post_cproperty_event (self : CProperty) (behav : Behavior)
    (evt : EPropertyEvent) : CProperty × List Delivery :=
  let listeners := self.m_listeners
  let r := notifyAll behav evt listeners self
  if evt = EPropertyEvent.data_modified then
    ({ r.1 with m_is_skippable_in_ser := false }, r.2)
  else
    r

/-- `CProperty::serialize_in`, the base-class wrapper: runs the virtual
`serialize_in_impl` (passed as a function over an abstract payload type,
standing for virtual dispatch), then unconditionally posts `data_modified`,
and returns the impl's result.  The returned `List Delivery` is the log of
the single event post. -/
def CProperty.serialize_in {σ : Type}
    (serialize_in_impl : σ → IStream → Bool × σ × IStream)
    (self : CProperty) (payload : σ) (behav : Behavior) (is : IStream) :
    Bool × CProperty × σ × IStream × List Delivery :=
  let r := serialize_in_impl payload is
  let p := post_cproperty_event self behav EPropertyEvent.data_modified
  (r.1, p.1, r.2.1, r.2.2, p.2)

/-- `CProperty::imgui_widget(label, editable)`, the base-class wrapper: runs
the virtual `imgui_widget_impl` (its `modified` result passed as a value),
and posts `data_modified` exactly when the impl reported a modification. -/
def CProperty.imgui_widget (self : CProperty) (behav : Behavior)
    (imgui_widget_impl_modified : Bool) : Bool × CProperty × List Delivery :=
  let modified := imgui_widget_impl_modified
  if modified then
    let p := post_cproperty_event self behav EPropertyEvent.data_modified
    (modified, p.1, p.2)
  else
    (modified, self, [])

/-- `CUnknownProperty`: base-class state plus `m_ctypename` (the `CSysName`
type token, content irrelevant to these claims) and the raw byte buffer
`m_data` (`std::vector<char>`). -/
structure CUnknownProperty where
  base : CProperty
  m_ctypename : String
  m_data : List Byte
deriving DecidableEq

/-- `CUnknownProperty::raw_data()`. -/
def CUnknownProperty.raw_data (self : CUnknownProperty) : List Byte := self.m_data

/-- `CUnknownProperty::serialize_in_impl`: `beg = tellg()`, seek to end,
`size = (size_t)(tellg() - beg)`, seek back, `m_data.resize(size)`
(truncate / zero-extend), `read(m_data.data(), size)` (overwriting the
first `gcount` bytes), return `is.good()`. -/
def CUnknownProperty.serialize_in_impl (self : CUnknownProperty) (is : IStream) :
    Bool × CUnknownProperty × IStream :=
  let beg : Int := is.tellg
  let is1 := is.seekg_end
  let size : Nat := (is1.tellg - beg).toNat
  let is2 := is1.seekg beg
  let resized := self.m_data.take size ++ List.replicate (size - self.m_data.length) 0
  let r := is2.read size
  let m_data1 := r.1 ++ resized.drop r.1.length
  (r.2.good, { self with m_data := m_data1 }, r.2)

/-- `CUnknownProperty::serialize_out`: write the buffer verbatim and return
`true` unconditionally. -/
def CUnknownProperty.serialize_out (self : CUnknownProperty) (os : OStream) :
    Bool × OStream :=
  let os1 := os.write self.m_data
  (true, os1)

/-- `serialize_in` as called on a `CUnknownProperty` object: the base-class
wrapper dispatching to `CUnknownProperty.serialize_in_impl`, with the base
subobject threaded back into the property. -/
def CUnknownProperty.serialize_in (self : CUnknownProperty) (behav : Behavior)
    (is : IStream) : Bool × CUnknownProperty × IStream × List Delivery :=
  match CProperty.serialize_in CUnknownProperty.serialize_in_impl
      self.base self behav is with
  | (ok, base1, self1, is1, ds) => (ok, { self1 with base := base1 }, is1, ds)

/-- `CUnknownProperty::imgui_widget_impl` never reports a modification: it
only displays the buffer and returns `modified = false` (outside the
`SkipItems` early-out, which also returns false). -/
def CUnknownProperty.imgui_widget_impl (_self : CUnknownProperty) : Bool := false

/-- The operations a client can perform on an Unknown-kind property node
over its lifetime; `widget` carries the `modified` answer of the virtual
`imgui_widget_impl` (false for `CUnknownProperty` itself, but typed
variants may report edits). -/
inductive PropOp where
  | serIn (is : IStream)
  | serOut (os : OStream)
  | widget (impl_modified : Bool)
  | addL (l : ListenerId)
  | removeL (l : ListenerId)
  | postEvent (evt : EPropertyEvent)
deriving DecidableEq

/-- One operation applied to the property, with the log of listener
callbacks it triggered.  `serOut` is a `const` method: the property state is
returned unchanged. -/
def opStepLog (behav : Behavior) (p : CUnknownProperty) :
    PropOp → CUnknownProperty × List Delivery
  | PropOp.serIn is =>
      let r := p.serialize_in behav is
      (r.2.1, r.2.2.2)
  | PropOp.serOut _os => (p, [])
  | PropOp.widget m =>
      let r := p.base.imgui_widget behav m
      ({ p with base := r.2.1 }, r.2.2)
  | PropOp.addL l => ({ p with base := p.base.add_listener l }, [])
  | PropOp.removeL l => ({ p with base := p.base.remove_listener l }, [])
  | PropOp.postEvent evt =>
      let r := post_cproperty_event p.base behav evt
      ({ p with base := r.1 }, r.2)

/-- The state after one operation. -/
def opStep (behav : Behavior) (p : CUnknownProperty) (op : PropOp) :
    CUnknownProperty :=
  (opStepLog behav p op).1

/-- The state after a sequence of operations. -/
def opSteps (behav : Behavior) (p : CUnknownProperty) (ops : List PropOp) :
    CUnknownProperty :=
  ops.foldl (opStep behav) p

/-! ### Helper lemmas on the notification machinery -/

theorem applyAction_skippable (s : CProperty) (a : LAction) :
    (applyAction s a).m_is_skippable_in_ser = s.m_is_skippable_in_ser := by
  cases a <;> rfl

theorem foldl_applyAction_skippable (as : List LAction) (s : CProperty) :
    (as.foldl applyAction s).m_is_skippable_in_ser = s.m_is_skippable_in_ser := by
  induction as generalizing s with
  | nil => rfl
  | cons a as ih =>
      simp only [List.foldl_cons]
      rw [ih, applyAction_skippable]

theorem applyAction_kind (s : CProperty) (a : LAction) :
    (applyAction s a).m_property_kind = s.m_property_kind := by
  cases a <;> rfl

theorem foldl_applyAction_kind (as : List LAction) (s : CProperty) :
    (as.foldl applyAction s).m_property_kind = s.m_property_kind := by
  induction as generalizing s with
  | nil => rfl
  | cons a as ih =>
      simp only [List.foldl_cons]
      rw [ih, applyAction_kind]

theorem notifyAll_skippable (behav : Behavior) (evt : EPropertyEvent)
    (ls : List ListenerId) (s : CProperty) :
    (notifyAll behav evt ls s).1.m_is_skippable_in_ser = s.m_is_skippable_in_ser := by
  induction ls generalizing s with
  | nil => rfl
  | cons l rest ih =>
      simp only [notifyAll]
      rw [ih, foldl_applyAction_skippable]

theorem notifyAll_listener_map (behav : Behavior) (evt : EPropertyEvent)
    (ls : List ListenerId) (s : CProperty) :
    (notifyAll behav evt ls s).2.map Delivery.listener = ls := by
  induction ls generalizing s with
  | nil => rfl
  | cons l rest ih =>
      simp only [notifyAll, List.map_cons]
      rw [ih]

theorem notifyAll_evt_map (behav : Behavior) (evt : EPropertyEvent)
    (ls : List ListenerId) (s : CProperty) :
    (notifyAll behav evt ls s).2.map Delivery.evt =
      List.replicate ls.length evt := by
  induction ls generalizing s with
  | nil => rfl
  | cons l rest ih =>
      simp only [notifyAll, List.map_cons, List.length_cons, List.replicate_succ]
      rw [ih]

theorem notifyAll_observed_skippable_map (behav : Behavior) (evt : EPropertyEvent)
    (ls : List ListenerId) (s : CProperty) :
    (notifyAll behav evt ls s).2.map
        (fun d => d.observed.m_is_skippable_in_ser) =
      List.replicate ls.length s.m_is_skippable_in_ser := by
  induction ls generalizing s with
  | nil => rfl
  | cons l rest ih =>
      simp only [notifyAll, List.map_cons, List.length_cons, List.replicate_succ]
      rw [ih, foldl_applyAction_skippable]

theorem post_cproperty_event_skippable (s : CProperty) (behav : Behavior)
    (evt : EPropertyEvent) :
    (post_cproperty_event s behav evt).1.m_is_skippable_in_ser = false := by
  cases evt
  rfl

theorem post_cproperty_event_listener_map (s : CProperty) (behav : Behavior)
    (evt : EPropertyEvent) :
    (post_cproperty_event s behav evt).2.map Delivery.listener = s.m_listeners := by
  cases evt
  simp only [post_cproperty_event, if_pos rfl]
  exact notifyAll_listener_map _ _ _ _

theorem post_cproperty_event_evt_map (s : CProperty) (behav : Behavior)
    (evt : EPropertyEvent) :
    (post_cproperty_event s behav evt).2.map Delivery.evt =
      List.replicate s.m_listeners.length evt := by
  cases evt
  simp only [post_cproperty_event, if_pos rfl]
  exact notifyAll_evt_map _ _ _ _

theorem post_cproperty_event_observed_map (s : CProperty) (behav : Behavior)
    (evt : EPropertyEvent) :
    (post_cproperty_event s behav evt).2.map
        (fun d => d.observed.m_is_skippable_in_ser) =
      List.replicate s.m_listeners.length s.m_is_skippable_in_ser := by
  cases evt
  simp only [post_cproperty_event, if_pos rfl]
  exact notifyAll_observed_skippable_map _ _ _ _

theorem serialize_in_impl_good (p : CUnknownProperty) (is : IStream)
    (hg : is.good = true) (hp : is.pos ≤ is.data.length) :
    p.serialize_in_impl is =
      (true, { p with m_data := is.data.drop is.pos },
        ⟨is.data, is.data.length, true⟩) := by
  obtain ⟨data, pos, good⟩ := is
  simp only at hg hp
  subst hg
  simp only [CUnknownProperty.serialize_in_impl, IStream.tellg, IStream.seekg_end,
    IStream.seekg, IStream.read, if_true, true_and]
  have h0 : (0 : Int) ≤ (pos : Int) := Int.ofNat_nonneg pos
  have h1 : (pos : Int) ≤ (data.length : Int) := Int.ofNat_le.mpr hp
  simp only [h0, h1, and_self, if_true, Int.toNat_sub, Int.toNat_ofNat, Int.toNat_natCast]
  have hsz : pos + (data.length - pos) ≤ data.length := by omega
  simp only [hsz, if_true]
  have htake : (data.drop pos).take (data.length - pos) = data.drop pos := by
    have : (data.drop pos).length = data.length - pos := List.length_drop pos data
    rw [← this, List.take_length]
  have hlenres : (p.m_data.take (data.length - pos) ++
      List.replicate (data.length - pos - p.m_data.length) 0).length =
      data.length - pos := by
    simp only [List.length_append, List.length_take, List.length_replicate]
    omega
  have hlen2 : (data.drop pos).length = data.length - pos := List.length_drop pos data
  rw [htake, hlen2, List.drop_eq_nil_of_le (le_of_eq hlenres), List.append_nil]
  have hpos : pos + (data.length - pos) = data.length := by omega
  rw [hpos]

theorem serialize_in_impl_bad (p : CUnknownProperty) (is : IStream)
    (hg : is.good = false) :
    (p.serialize_in_impl is).1 = false := by
  obtain ⟨data, pos, good⟩ := is
  simp only at hg
  subst hg
  rfl

theorem serialize_in_eq (p : CUnknownProperty) (behav : Behavior) (is : IStream) :
    p.serialize_in behav is =
      ((p.serialize_in_impl is).1,
       { (p.serialize_in_impl is).2.1 with
           base := (post_cproperty_event p.base behav EPropertyEvent.data_modified).1 },
       (p.serialize_in_impl is).2.2,
       (post_cproperty_event p.base behav EPropertyEvent.data_modified).2) := rfl

theorem serialize_in_good_parts (p : CUnknownProperty) (behav : Behavior)
    (is : IStream) (hg : is.good = true) (hp : is.pos ≤ is.data.length) :
    ((p.serialize_in behav is).2.1).m_data = is.data.drop is.pos ∧
    (p.serialize_in behav is).1 = true := by
  rw [serialize_in_eq, serialize_in_impl_good p is hg hp]
  exact ⟨rfl, rfl⟩

theorem serialize_out_unbounded (q : CUnknownProperty) (os : OStream)
    (hog : os.good = true) (hoc : os.cap = Option.none) :
    q.serialize_out os = (true, { os with out := os.out ++ q.m_data }) := by
  obtain ⟨out, cap, good⟩ := os
  simp only at hog hoc
  subst hog
  subst hoc
  rfl

/-- C1: round-trip identity of the Unknown fallback. If the bounded region of
the input stream from the current position to its end contains exactly the
bytes `b` and the stream has not faulted, then `serialize_in` succeeds and a
subsequent `serialize_out` (to a healthy output stream) writes exactly `b`,
byte for byte, for arbitrary `b` including the empty sequence. -/
theorem C1_unknown_roundtrip (p : CUnknownProperty) (b : List Byte)
    (is : IStream) (os : OStream) (behav : Behavior)
    (hg : is.good = true) (hp : is.pos ≤ is.data.length)
    (hb : is.data.drop is.pos = b)
    (hog : os.good = true) (hoc : os.cap = Option.none) :
    (p.serialize_in behav is).1 = true ∧
    (((p.serialize_in behav is).2.1).serialize_out os).2.out = os.out ++ b := by
  obtain ⟨hmd, hok⟩ := serialize_in_good_parts p behav is hg hp
  refine ⟨hok, ?_⟩
  rw [serialize_out_unbounded _ os hog hoc]
  show os.out ++ ((p.serialize_in behav is).2.1).m_data = os.out ++ b
  rw [hmd, hb]

/-- Witness for C1 at a concrete input: region `[3, 255]` behind position 1
of stream `[7, 3, 255]`, written after `[9]` already emitted. -/
theorem C1_witness :
    (⟨[7, 3, 255], 1, true⟩ : IStream).good = true ∧
    (⟨[7, 3, 255], 1, true⟩ : IStream).pos ≤
      (⟨[7, 3, 255], 1, true⟩ : IStream).data.length ∧
    (⟨[7, 3, 255], 1, true⟩ : IStream).data.drop
      (⟨[7, 3, 255], 1, true⟩ : IStream).pos = [3, 255] ∧
    (⟨[9], Option.none, true⟩ : OStream).good = true ∧
    (⟨[9], Option.none, true⟩ : OStream).cap = Option.none ∧
    (CUnknownProperty.serialize_in ⟨⟨EPropertyKind.Unknown, true, [4]⟩, "t", [9]⟩
        (fun _ _ => []) ⟨[7, 3, 255], 1, true⟩).1 = true ∧
    (((CUnknownProperty.serialize_in ⟨⟨EPropertyKind.Unknown, true, [4]⟩, "t", [9]⟩
        (fun _ _ => []) ⟨[7, 3, 255], 1, true⟩).2.1).serialize_out
          ⟨[9], Option.none, true⟩).2.out = [9] ++ [3, 255] :=
  ⟨rfl, by decide, rfl, rfl, rfl,
    C1_unknown_roundtrip ⟨⟨EPropertyKind.Unknown, true, [4]⟩, "t", [9]⟩ [3, 255]
      ⟨[7, 3, 255], 1, true⟩ ⟨[9], Option.none, true⟩ (fun _ _ => [])
      rfl (by decide) rfl rfl rfl⟩

/-- C2 counterexample: a freshly constructed `CUnknownProperty` loaded from a
(bounded, empty-remainder) stream: `serialize_in` returns `true` yet
`is_skippable_in_serialization()` afterwards returns `false`, because
`serialize_in` itself posts `data_modified`, which clears the flag. -/
theorem C2_counterexample :
    (CUnknownProperty.serialize_in ⟨CProperty.construct EPropertyKind.Unknown, "", []⟩
        (fun _ _ => []) ⟨[7, 3], 0, true⟩).1 = true ∧
    ((CUnknownProperty.serialize_in ⟨CProperty.construct EPropertyKind.Unknown, "", []⟩
        (fun _ _ => []) ⟨[7, 3], 0, true⟩).2.1).base.is_skippable_in_serialization
      = false := by
  exact ⟨rfl, rfl⟩

/-- C2 amended: the skippable flag is `true` at construction, but after
`serialize_in` returns (successfully or not) it is `false`, because the
`data_modified` event that `serialize_in` itself posts clears it; it is the
first mutation notification, not user edits only, that flips the flag. -/
theorem C2_skippable_after_load :
    (∀ kind : EPropertyKind,
        (CProperty.construct kind).is_skippable_in_serialization = true) ∧
    ∀ (p : CUnknownProperty) (behav : Behavior) (is : IStream),
      ((p.serialize_in behav is).2.1).base.is_skippable_in_serialization = false := by
  refine ⟨fun kind => rfl, fun p behav is => ?_⟩
  show (post_cproperty_event p.base behav
      EPropertyEvent.data_modified).1.m_is_skippable_in_ser = false
  exact post_cproperty_event_skippable _ _ _

/-- C3 counterexample: a fresh property with one registered listener; posting
`data_modified` lets that listener observe `is_skippable_in_serialization()`
as `true` from within its callback, because the flag is cleared only after
the notification loop. -/
theorem C3_counterexample :
    ((post_cproperty_event ⟨EPropertyKind.Unknown, true, [1]⟩ (fun _ _ => [])
        EPropertyEvent.data_modified).2.map
      (fun d => d.observed.is_skippable_in_serialization)) = [true] := by
  rfl

/-- C3 amended: every listener notified of an event observes, from within its
callback, the skippable flag value the property had when the event was
posted (`true` on the first mutation of a fresh node); the flag reads
`false` only once `post_cproperty_event` has returned. -/
theorem C3_observed_flag (s : CProperty) (behav : Behavior) :
    ((post_cproperty_event s behav EPropertyEvent.data_modified).2.map
        (fun d => d.observed.is_skippable_in_serialization)) =
      List.replicate s.m_listeners.length s.is_skippable_in_serialization ∧
    (post_cproperty_event s behav
        EPropertyEvent.data_modified).1.is_skippable_in_serialization = false := by
  constructor
  · exact post_cproperty_event_observed_map s behav EPropertyEvent.data_modified
  · exact post_cproperty_event_skippable s behav EPropertyEvent.data_modified

/-- C4 counterexample: an output stream that faults on the write (capacity 0,
one byte to emit): the write leaves the stream in a failed state, yet
`CUnknownProperty::serialize_out` still returns `true`. -/
theorem C4_counterexample :
    (CUnknownProperty.serialize_out ⟨⟨EPropertyKind.Unknown, true, []⟩, "", [42]⟩
        ⟨[], Option.some 0, true⟩).1 = true ∧
    (CUnknownProperty.serialize_out ⟨⟨EPropertyKind.Unknown, true, []⟩, "", [42]⟩
        ⟨[], Option.some 0, true⟩).2.good = false := by
  exact ⟨rfl, rfl⟩

/-- C4 amended: for a `CUnknownProperty`, `serialize_in` returns `true` if
and only if the underlying input stream did not fault, but `serialize_out`
returns `true` unconditionally, even when the output stream write faults. -/
theorem C4_fault_surfacing (p q : CUnknownProperty) (behav : Behavior)
    (is : IStream) (os : OStream) (hp : is.pos ≤ is.data.length) :
    (p.serialize_in behav is).1 = is.good ∧
    (q.serialize_out os).1 = true := by
  refine ⟨?_, rfl⟩
  show (p.serialize_in_impl is).1 = is.good
  cases hg : is.good with
  | true => rw [serialize_in_impl_good p is hg hp]
  | false => rw [serialize_in_impl_bad p is hg]

/-- Witness for C4 at concrete inputs: a good stream (load succeeds) and a
faulted-at-entry stream (load reports failure); the write side returns true. -/
theorem C4_witness :
    (⟨[5], 0, true⟩ : IStream).pos ≤ (⟨[5], 0, true⟩ : IStream).data.length ∧
    (CUnknownProperty.serialize_in ⟨⟨EPropertyKind.Unknown, true, []⟩, "", []⟩
        (fun _ _ => []) ⟨[5], 0, true⟩).1 = (⟨[5], 0, true⟩ : IStream).good ∧
    (CUnknownProperty.serialize_out ⟨⟨EPropertyKind.Unknown, true, []⟩, "", [1]⟩
        ⟨[], Option.none, true⟩).1 = true :=
  ⟨by decide,
    (C4_fault_surfacing ⟨⟨EPropertyKind.Unknown, true, []⟩, "", []⟩
      ⟨⟨EPropertyKind.Unknown, true, []⟩, "", [1]⟩ (fun _ _ => [])
      ⟨[5], 0, true⟩ ⟨[], Option.none, true⟩ (by decide)).1,
    (C4_fault_surfacing ⟨⟨EPropertyKind.Unknown, true, []⟩, "", []⟩
      ⟨⟨EPropertyKind.Unknown, true, []⟩, "", [1]⟩ (fun _ _ => [])
      ⟨[5], 0, true⟩ ⟨[], Option.none, true⟩ (by decide)).2⟩

/-- C5: the base-class `serialize_in` wrapper, for any kind-specific
`serialize_in_impl` (hence for every property), posts exactly one
`data_modified` event — each listener registered on the property receives
exactly one callback carrying `data_modified`, whether the impl succeeded or
failed — and returns exactly the boolean result of `serialize_in_impl` (so
it returns `false` precisely when the impl reports truncated or malformed
input). -/
theorem C5_serialize_in_contract {σ : Type}
    (serialize_in_impl : σ → IStream → Bool × σ × IStream)
    (self : CProperty) (payload : σ) (behav : Behavior) (is : IStream) :
    (CProperty.serialize_in serialize_in_impl self payload behav is).1 =
      (serialize_in_impl payload is).1 ∧
    ((CProperty.serialize_in serialize_in_impl self payload behav
        is).2.2.2.2).map Delivery.listener = self.m_listeners ∧
    ((CProperty.serialize_in serialize_in_impl self payload behav
        is).2.2.2.2).map Delivery.evt =
      List.replicate self.m_listeners.length EPropertyEvent.data_modified := by
  refine ⟨rfl, ?_, ?_⟩
  · exact post_cproperty_event_listener_map self behav EPropertyEvent.data_modified
  · exact post_cproperty_event_evt_map self behav EPropertyEvent.data_modified

/-- C6: skippable-flag monotonicity. Once `is_skippable_in_serialization()`
is `false`, no sequence of operations — `serialize_in`, `serialize_out`,
widget edits, `add_listener`, `remove_listener`, event posts, with arbitrary
listener behaviours — ever makes it `true` again. -/
theorem C6_skippable_monotone (behav : Behavior) (p : CUnknownProperty)
    (ops : List PropOp)
    (h : p.base.is_skippable_in_serialization = false) :
    (opSteps behav p ops).base.is_skippable_in_serialization = false := by
  induction ops generalizing p with
  | nil => exact h
  | cons op rest ih =>
      show (opSteps behav (opStep behav p op) rest).base.is_skippable_in_serialization
        = false
      refine ih (opStep behav p op) ?_
      cases op with
      | serIn is =>
          show (post_cproperty_event p.base behav
            EPropertyEvent.data_modified).1.m_is_skippable_in_ser = false
          exact post_cproperty_event_skippable _ _ _
      | serOut os => exact h
      | widget m =>
          cases m with
          | true =>
              show (post_cproperty_event p.base behav
                EPropertyEvent.data_modified).1.m_is_skippable_in_ser = false
              exact post_cproperty_event_skippable _ _ _
          | false => exact h
      | addL l => exact h
      | removeL l => exact h
      | postEvent evt =>
          show (post_cproperty_event p.base behav evt).1.m_is_skippable_in_ser
            = false
          exact post_cproperty_event_skippable _ _ _

/-- Witness for C6: a node whose flag is already false keeps a false flag
through a concrete mixed sequence of the six operations. -/
theorem C6_witness :
    (⟨⟨EPropertyKind.Unknown, false, [1]⟩, "", [5]⟩ :
        CUnknownProperty).base.is_skippable_in_serialization = false ∧
    (opSteps (fun _ _ => []) ⟨⟨EPropertyKind.Unknown, false, [1]⟩, "", [5]⟩
        [PropOp.addL 2, PropOp.widget true, PropOp.serOut ⟨[], Option.none, true⟩,
         PropOp.serIn ⟨[9], 0, true⟩, PropOp.removeL 1,
         PropOp.postEvent EPropertyEvent.data_modified]).base.is_skippable_in_serialization
      = false :=
  ⟨rfl, C6_skippable_monotone (fun _ _ => [])
    ⟨⟨EPropertyKind.Unknown, false, [1]⟩, "", [5]⟩
    [PropOp.addL 2, PropOp.widget true, PropOp.serOut ⟨[], Option.none, true⟩,
     PropOp.serIn ⟨[9], 0, true⟩, PropOp.removeL 1,
     PropOp.postEvent EPropertyEvent.data_modified] rfl⟩

/-- C7: idempotent save. `CUnknownProperty::serialize_out` writes the stored
buffer without touching any property state (it is a `const` operation, and
in the operation semantics `serOut` leaves the node unchanged), so two
consecutive calls with no mutation in between write byte-identical output —
each appends exactly `m_data` — and both return `true`. -/
theorem C7_idempotent_save (p : CUnknownProperty) (os : OStream)
    (behav : Behavior) (os2 : OStream)
    (hog : os.good = true) (hoc : os.cap = Option.none) :
    (p.serialize_out os).2.out = os.out ++ p.m_data ∧
    (p.serialize_out (p.serialize_out os).2).2.out =
      os.out ++ p.m_data ++ p.m_data ∧
    (p.serialize_out os).1 = true ∧
    (p.serialize_out (p.serialize_out os).2).1 = true ∧
    opStep behav p (PropOp.serOut os2) = p := by
  rw [serialize_out_unbounded p os hog hoc]
  have h2 : ({ os with out := os.out ++ p.m_data } : OStream).good = true := hog
  have h2c : ({ os with out := os.out ++ p.m_data } : OStream).cap = Option.none := hoc
  rw [serialize_out_unbounded p _ h2 h2c]
  exact ⟨rfl, rfl, rfl, rfl, rfl⟩

/-- Witness for C7: concrete double save of buffer `[1, 2]` after `[9]`. -/
theorem C7_witness :
    (⟨[9], Option.none, true⟩ : OStream).good = true ∧
    (⟨[9], Option.none, true⟩ : OStream).cap = Option.none ∧
    (CUnknownProperty.serialize_out ⟨⟨EPropertyKind.Unknown, false, []⟩, "", [1, 2]⟩
        ⟨[9], Option.none, true⟩).2.out = [9] ++ [1, 2] ∧
    (CUnknownProperty.serialize_out ⟨⟨EPropertyKind.Unknown, false, []⟩, "", [1, 2]⟩
        (CUnknownProperty.serialize_out ⟨⟨EPropertyKind.Unknown, false, []⟩, "", [1, 2]⟩
          ⟨[9], Option.none, true⟩).2).2.out = [9] ++ [1, 2] ++ [1, 2] :=
  ⟨rfl, rfl,
    (C7_idempotent_save ⟨⟨EPropertyKind.Unknown, false, []⟩, "", [1, 2]⟩
      ⟨[9], Option.none, true⟩ (fun _ _ => []) ⟨[], Option.none, true⟩ rfl rfl).1,
    (C7_idempotent_save ⟨⟨EPropertyKind.Unknown, false, []⟩, "", [1, 2]⟩
      ⟨[9], Option.none, true⟩ (fun _ _ => []) ⟨[], Option.none, true⟩ rfl rfl).2.1⟩

/-- C8: synchronous broadcast on mutation. When `imgui_widget`'s impl
reports a modification, the `data_modified` event is delivered — within the
call, i.e. the callback log is part of the call's own result — to exactly
the listeners registered at the start of the notification, each receiving
`data_modified`; in particular with two registered listeners both receive
it before the mutating call returns. -/
theorem C8_synchronous_broadcast (s : CProperty) (behav : Behavior) :
    ((s.imgui_widget behav true).2.2).map Delivery.listener = s.m_listeners ∧
    ((s.imgui_widget behav true).2.2).map Delivery.evt =
      List.replicate s.m_listeners.length EPropertyEvent.data_modified ∧
    (s.imgui_widget behav true).1 = true := by
  refine ⟨?_, ?_, rfl⟩
  · exact post_cproperty_event_listener_map s behav EPropertyEvent.data_modified
  · exact post_cproperty_event_evt_map s behav EPropertyEvent.data_modified

/-- C9: observation is not a mutation. `add_listener` and `remove_listener`
change only the listener set: the skippable flag, the kind and the payload
(`m_data`, `m_ctypename`) are untouched, and no event is posted to any
listener. -/
theorem C9_observation_not_mutation (s : CProperty) (l : ListenerId)
    (p : CUnknownProperty) (behav : Behavior) :
    (s.add_listener l).is_skippable_in_serialization =
      s.is_skippable_in_serialization ∧
    (s.add_listener l).kind = s.kind ∧
    (s.remove_listener l).is_skippable_in_serialization =
      s.is_skippable_in_serialization ∧
    (s.remove_listener l).kind = s.kind ∧
    (s.add_listener l).m_listeners = setInsert l s.m_listeners ∧
    (s.remove_listener l).m_listeners = setErase l s.m_listeners ∧
    (opStepLog behav p (PropOp.addL l)).2 = [] ∧
    (opStepLog behav p (PropOp.removeL l)).2 = [] ∧
    (opStepLog behav p (PropOp.addL l)).1.m_data = p.m_data ∧
    (opStepLog behav p (PropOp.removeL l)).1.m_data = p.m_data ∧
    (opStepLog behav p (PropOp.addL l)).1.m_ctypename = p.m_ctypename ∧
    (opStepLog behav p (PropOp.removeL l)).1.m_ctypename = p.m_ctypename :=
  ⟨rfl, rfl, rfl, rfl, rfl, rfl, rfl, rfl, rfl, rfl, rfl, rfl⟩

/-- C10: notification snapshot semantics. `post_cproperty_event` iterates
over a copy of the listener set taken at the start of the notification, so
whatever a callback does to the listener set (any behaviour: unregistering
itself or others, registering new listeners), the listeners that receive the
in-flight event are exactly those registered when the post began. -/
theorem C10_snapshot_delivery (s : CProperty) (behav : Behavior)
    (evt : EPropertyEvent) :
    ((post_cproperty_event s behav evt).2).map Delivery.listener =
      s.m_listeners :=
  post_cproperty_event_listener_map s behav evt
